import Mathlib

/-!
Shallow embedding of the `mcp-server-kakao-map` search pipeline (src/main.go).

The embedding models the tool callback `searchTool` and its helpers
`fetchMapDocuments`, `fetchWebDocuments`, `fetchImageDocument`.  Network I/O is
abstracted as a `Gateway` of three oracles (one per upstream endpoint), each a
function from the query string to the decoded document list or an error — this
matches `makeKakaoRequest` decoding a `{documents: [...]}` body or failing.
A run records, besides the Go function's return value, the ordered list of
progress-notification messages and the ordered trace of network calls issued.

The two enrichment fetches of one candidate run concurrently in the Go code
(two goroutines joined by `wg.Wait()`); the order in which the two calls of
candidate `n` hit the network is therefore nondeterministic, which we model by
a scheduling oracle `sched : Nat → Bool` choosing, per candidate index, which
of the two calls is recorded first.  `NotifyProgress` may fail; the Go code
discards its result (`_ = serverSession.NotifyProgress(...)`), which we model
by a delivery oracle `deliver` whose result is computed and discarded.
-/

structure SearchSchema where
  Query : String
deriving DecidableEq, Repr

structure MapDocument where
  PlaceName : String
  AddressName : String
  CategoryName : String
  PlaceURL : String
  Phone : String
deriving DecidableEq, Repr

structure WebDocument where
  Title : String
  Contents : String
deriving DecidableEq, Repr

structure ImageDocument where
  ImageURL : String
deriving DecidableEq, Repr

structure KakaoLocalSearchResult where
  PlaceName : String
  AddressName : String
  CategoryName : String
  PlaceURL : String
  Phone : String
  ImageURL : String
  Comments : List WebDocument
deriving DecidableEq, Repr

/-- The fixed formatting-instruction payload (`systemPrompt` in main.go),
sent as the first progress notification. -/
def systemPrompt : String :=
  "\nUsing the provided JSON results, compile a detailed and visually appealing Markdown summary for the user.\n\nEach place **MUST** include:\n\n## [{place_name}]({place_url})\n\n![Image]({image_url})\n\n- **Address**: {address_name}\n- **Category**: {category_name}\n- **Contact**: {phone}\n- **Summary**: Briefly summarize the overall sentiment or notable points based on provided comments. Consider aspects such as positive features, negative issues, and unique highlights.\n\nNote:\n- The summary should be directly derived by analyzing and condensing the provided comments.\n- Ensure all listed elements (title with link, image, address, category, contact, and summary) are always included for every place."

/-- The three upstream endpoints, abstracted: each maps a query to the decoded
document list of the 200-OK JSON body, or to an error (non-200 status,
transport failure, or decode failure inside `makeKakaoRequest`). -/
structure Gateway where
  localSearch : String → Except String (List MapDocument)
  webSearch : String → Except String (List WebDocument)
  imageSearch : String → Except String (List ImageDocument)

/-- One entry of the network-call trace. -/
inductive NetCall where
  | localSearch (query : String)
  | webSearch (query : String)
  | imageSearch (query : String)
deriving DecidableEq, Repr

/-- The Go function returns `(*mcp.CallToolResult, any, error)`:
`err` models a non-nil error return (tool-level failure), `result` models a
`CallToolResult` with its `IsError` flag and single text content. -/
inductive ToolOutcome where
  | err (msg : String)
  | result (isError : Bool) (text : String)
deriving DecidableEq, Repr

/-- Observable behaviour of one `searchTool` invocation: the returned value,
the progress-notification messages in delivery order, and the network calls
in issue order. -/
structure RunOutput where
  outcome : ToolOutcome
  progress : List String
  calls : List NetCall
deriving DecidableEq, Repr

/-- `fetchMapDocuments`: keyword place search, passes the decoded documents
through (main.go lines 118-127). -/
def fetchMapDocuments (gw : Gateway) (query : String) :
    Except String (List MapDocument) :=
  gw.localSearch query

/-- `fetchWebDocuments`: web-document search, passes the decoded documents
through (main.go lines 129-138). -/
def fetchWebDocuments (gw : Gateway) (query : String) :
    Except String (List WebDocument) :=
  gw.webSearch query

/-- `fetchImageDocument` (main.go lines 140-153): on success returns the first
decoded image document, or a zero-value `ImageDocument` (empty URL) when the
decoded list is empty; errors of the underlying request are passed through. -/
def fetchImageDocument (gw : Gateway) (query : String) :
    Except String ImageDocument :=
  match gw.imageSearch query with
  | Except.error e => Except.error e
  | Except.ok docs =>
    match docs with
    | d :: _ => Except.ok d
    | [] => Except.ok { ImageURL := "" }

/-- Hex digit used by the JSON string escaper (lowercase, as Go emits). -/
def hexDigit (n : Nat) : Char :=
  (String.toList "0123456789abcdef").getD n '0'

/-- Escaping of one character inside a JSON string, following Go's
`encoding/json` encoder (HTML escaping on, as `json.Marshal` defaults). -/
def escapeChar (c : Char) : String :=
  if c = '"' then "\\\""
  else if c = '\\' then "\\\\"
  else if c = '\n' then "\\n"
  else if c = '\r' then "\\r"
  else if c = '\t' then "\\t"
  else if c = '<' then "\\u003c"
  else if c = '>' then "\\u003e"
  else if c = '&' then "\\u0026"
  else if c.toNat < 32 then
    "\\u00" ++ String.singleton (hexDigit (c.toNat / 16))
      ++ String.singleton (hexDigit (c.toNat % 16))
  else if c.toNat = 0x2028 then "\\u2028"
  else if c.toNat = 0x2029 then "\\u2029"
  else String.singleton c

def jsonString (s : String) : String :=
  "\"" ++ String.join ((String.toList s).map escapeChar) ++ "\""

/-- `json.Marshal` of one `WebDocument` (struct field order, json tags). -/
def encodeWebDocument (w : WebDocument) : String :=
  "\x7b\"title\":" ++ jsonString w.Title
    ++ ",\"contents\":" ++ jsonString w.Contents ++ "\x7d"

def encodeComments (ws : List WebDocument) : String :=
  "[" ++ String.intercalate "," (ws.map encodeWebDocument) ++ "]"

/-- `json.Marshal` of one `KakaoLocalSearchResult` (struct field order, json
tags).  On this shape — strings and a slice of string-pairs — Go's marshaller
cannot fail, so serialization is modelled total and the `continue` on marshal
error in main.go line 229 is dead code. -/
def encodeResult (r : KakaoLocalSearchResult) : String :=
  "\x7b\"place_name\":" ++ jsonString r.PlaceName
    ++ ",\"address_name\":" ++ jsonString r.AddressName
    ++ ",\"category_name\":" ++ jsonString r.CategoryName
    ++ ",\"place_url\":" ++ jsonString r.PlaceURL
    ++ ",\"phone\":" ++ jsonString r.Phone
    ++ ",\"image_url\":" ++ jsonString r.ImageURL
    ++ ",\"comments\":" ++ encodeComments r.Comments ++ "\x7d"

/-- One loop iteration's enrichment result (main.go lines 195-224): both
fetches are issued for `d.PlaceName`; if either errors the candidate yields
nothing, otherwise the enriched record copies the candidate's five fields and
attaches the fetched comments and image URL. -/
def enrichOne (gw : Gateway) (d : MapDocument) : Option KakaoLocalSearchResult :=
  match fetchWebDocuments gw d.PlaceName, fetchImageDocument gw d.PlaceName with
  | Except.ok webDocs, Except.ok imgDoc =>
    some { PlaceName := d.PlaceName
           AddressName := d.AddressName
           CategoryName := d.CategoryName
           PlaceURL := d.PlaceURL
           Phone := d.Phone
           ImageURL := imgDoc.ImageURL
           Comments := webDocs }
  | _, _ => none

/-- The two network calls one candidate's enrichment issues; the Bool chooses
which of the two concurrent goroutines reaches the network first. -/
def candidateCalls (webFirst : Bool) (d : MapDocument) : List NetCall :=
  if webFirst then
    [NetCall.webSearch d.PlaceName, NetCall.imageSearch d.PlaceName]
  else
    [NetCall.imageSearch d.PlaceName, NetCall.webSearch d.PlaceName]

/-- The candidate loop of `searchTool` (main.go lines 193-239): candidates are
processed strictly in list order; a successfully enriched candidate's JSON is
passed to `NotifyProgress` (whose result the Go code discards), a failed one
is skipped.  Returns the progress messages and the network-call trace of the
loop.  `sched n` schedules candidate `n`'s two concurrent calls. -/
def processCandidates (gw : Gateway) (deliver : String → Except String Unit)
    (sched : Nat → Bool) : List MapDocument → List String × List NetCall
  | [] => ([], [])
  | d :: rest =>
    let tailOut := processCandidates gw deliver (fun n => sched (n + 1)) rest
    match enrichOne gw d with
    | some r =>
      let msg := encodeResult r
      let _ := deliver msg
      (msg :: tailOut.1, candidateCalls (sched 0) d ++ tailOut.2)
    | none => (tailOut.1, candidateCalls (sched 0) d ++ tailOut.2)

/-- The tool callback `searchTool` (main.go lines 157-245): guard on the
configured API key, guard on the empty query, announce the system prompt,
fetch the place candidates (aborting the call on failure), then enrich and
stream each candidate, returning the fixed completion result. -/
def searchTool (kakaoAPIKey : String) (options : SearchSchema) (gw : Gateway)
    (deliver : String → Except String Unit) (sched : Nat → Bool) : RunOutput :=
  if kakaoAPIKey = "" then
    { outcome := ToolOutcome.result true
        "Tool Execution Failed: KAKAO_API_KEY is not configured."
      progress := []
      calls := [] }
  else if options.Query = "" then
    { outcome := ToolOutcome.result true "Query is empty"
      progress := []
      calls := [] }
  else
    let _ := deliver systemPrompt
    match fetchMapDocuments gw options.Query with
    | Except.error e =>
      { outcome := ToolOutcome.err ("failed to fetch map documents: " ++ e)
        progress := [systemPrompt]
        calls := [NetCall.localSearch options.Query] }
    | Except.ok docs =>
      let body := processCandidates gw deliver sched docs
      { outcome := ToolOutcome.result false
          "Search complete. All results have been streamed."
        progress := systemPrompt :: body.1
        calls := NetCall.localSearch options.Query :: body.2 }

/-! ### Sample fixtures used by the witnesses -/

def docA : MapDocument :=
  { PlaceName := "PA", AddressName := "addrA", CategoryName := "catA",
    PlaceURL := "urlA", Phone := "phA" }

def docB : MapDocument :=
  { PlaceName := "PB", AddressName := "addrB", CategoryName := "catB",
    PlaceURL := "urlB", Phone := "phB" }

/-- A deterministic gateway: query "A" yields two candidates; candidate "PA"
enriches fully, candidate "PB" has a failing web-document fetch; every other
place-search query fails with status 404. -/
def gwSample : Gateway :=
  { localSearch := fun q =>
      if q = "A" then Except.ok [docA, docB] else Except.error "404"
    webSearch := fun q =>
      if q = "PA" then Except.ok [{ Title := "t", Contents := "c" }]
      else Except.error "500"
    imageSearch := fun q =>
      if q = "PA" then Except.ok [{ ImageURL := "img" }] else Except.ok [] }

def sampleDeliver : String → Except String Unit := fun _ => Except.ok ()

def failDeliver : String → Except String Unit := fun _ =>
  Except.error "delivery failed"

def schedTrue : Nat → Bool := fun _ => true

def schedAlt : Nat → Bool := fun n => n % 2 = 0

/-! ### Characterization lemmas for the candidate loop -/

/-- The progress messages of the loop are exactly the serializations of the
successfully enriched candidates, in input order. -/
theorem processCandidates_fst (gw : Gateway) (deliver : String → Except String Unit) :
    ∀ (docs : List MapDocument) (sched : Nat → Bool),
      (processCandidates gw deliver sched docs).1
        = docs.filterMap (fun d => (enrichOne gw d).map encodeResult) := by
  intro docs
  induction docs with
  | nil => intro sched; rfl
  | cons d rest ih =>
    intro sched
    cases h : enrichOne gw d <;>
      simp [processCandidates, h, ih, List.filterMap_cons]

/-- The loop's behaviour does not depend on the delivery oracle: the result of
each `NotifyProgress` call is discarded. -/
theorem processCandidates_deliver (gw : Gateway)
    (d1 d2 : String → Except String Unit) :
    ∀ (docs : List MapDocument) (sched : Nat → Bool),
      processCandidates gw d1 sched docs = processCandidates gw d2 sched docs := by
  intro docs
  induction docs with
  | nil => intro sched; rfl
  | cons d rest ih =>
    intro sched
    cases h : enrichOne gw d <;> simp [processCandidates, h, ih]

/-- The loop's progress messages do not depend on the intra-candidate
scheduling of the two concurrent fetches. -/
theorem processCandidates_fst_sched (gw : Gateway)
    (deliver : String → Except String Unit) (docs : List MapDocument)
    (s1 s2 : Nat → Bool) :
    (processCandidates gw deliver s1 docs).1
      = (processCandidates gw deliver s2 docs).1 := by
  rw [processCandidates_fst, processCandidates_fst]

/-- The loop's network trace is a concatenation of per-candidate blocks, one
block per candidate in input order, each block being that candidate's two
enrichment calls in one of the two concurrent orders. -/
theorem processCandidates_blocks (gw : Gateway)
    (deliver : String → Except String Unit) :
    ∀ (docs : List MapDocument) (sched : Nat → Bool),
      ∃ blocks : List (List NetCall),
        (processCandidates gw deliver sched docs).2 = blocks.flatten
        ∧ blocks.length = docs.length
        ∧ ∀ p ∈ blocks.zip docs,
            p.1 = [NetCall.webSearch p.2.PlaceName,
                   NetCall.imageSearch p.2.PlaceName]
            ∨ p.1 = [NetCall.imageSearch p.2.PlaceName,
                     NetCall.webSearch p.2.PlaceName] := by
  intro docs
  induction docs with
  | nil => intro sched; exact ⟨[], rfl, rfl, by simp⟩
  | cons d rest ih =>
    intro sched
    obtain ⟨blocks, hjoin, hlen, hmem⟩ := ih (fun n => sched (n + 1))
    refine ⟨candidateCalls (sched 0) d :: blocks, ?_, ?_, ?_⟩
    · cases h : enrichOne gw d <;> simp [processCandidates, h, hjoin]
    · simp [hlen]
    · intro p hp
      rw [List.zip_cons_cons] at hp
      rcases List.mem_cons.mp hp with h1 | h1
      · subst h1
        cases hs : sched 0 <;> simp [candidateCalls, hs]
      · exact hmem p h1

/-- Unfolding of `searchTool` when both guards pass and place search succeeds. -/
theorem searchTool_ok (key q : String) (gw : Gateway)
    (deliver : String → Except String Unit) (sched : Nat → Bool)
    (docs : List MapDocument)
    (hk : ¬ key = "") (hq : ¬ q = "")
    (hdocs : gw.localSearch q = Except.ok docs) :
    searchTool key ⟨q⟩ gw deliver sched
      = { outcome := ToolOutcome.result false
            "Search complete. All results have been streamed."
          progress := systemPrompt :: (processCandidates gw deliver sched docs).1
          calls := NetCall.localSearch q
            :: (processCandidates gw deliver sched docs).2 } := by
  simp [searchTool, fetchMapDocuments, hdocs, hk, hq]

/-- Unfolding of `searchTool` when both guards pass and place search fails. -/
theorem searchTool_fetch_failed (key q : String) (gw : Gateway)
    (deliver : String → Except String Unit) (sched : Nat → Bool) (e : String)
    (hk : ¬ key = "") (hq : ¬ q = "")
    (hdocs : gw.localSearch q = Except.error e) :
    searchTool key ⟨q⟩ gw deliver sched
      = { outcome := ToolOutcome.err ("failed to fetch map documents: " ++ e)
          progress := [systemPrompt]
          calls := [NetCall.localSearch q] } := by
  simp [searchTool, fetchMapDocuments, hdocs, hk, hq]

/-! ### Claims -/

/-- C1: for every candidate list returned by place search, the orchestrator
enriches and emits candidates strictly one at a time in place-search order:
the emitted enrichment payloads are exactly the serializations of the
successfully enriched candidates, as a subsequence in place-search result
order, and the network trace after the place-search call splits into
consecutive per-candidate blocks (one block of two enrichment calls per
candidate, in candidate order), so no two candidates' enrichment overlaps. -/
theorem searchTool_ordered_stream (key q : String) (gw : Gateway)
    (deliver : String → Except String Unit) (sched : Nat → Bool)
    (docs : List MapDocument)
    (hk : ¬ key = "") (hq : ¬ q = "")
    (hdocs : gw.localSearch q = Except.ok docs) :
    (searchTool key ⟨q⟩ gw deliver sched).progress
        = systemPrompt
            :: docs.filterMap (fun d => (enrichOne gw d).map encodeResult)
    ∧ ∃ blocks : List (List NetCall),
        (searchTool key ⟨q⟩ gw deliver sched).calls
            = NetCall.localSearch q :: blocks.flatten
        ∧ blocks.length = docs.length
        ∧ ∀ p ∈ blocks.zip docs,
            p.1 = [NetCall.webSearch p.2.PlaceName,
                   NetCall.imageSearch p.2.PlaceName]
            ∨ p.1 = [NetCall.imageSearch p.2.PlaceName,
                     NetCall.webSearch p.2.PlaceName] := by
  rw [searchTool_ok key q gw deliver sched docs hk hq hdocs]
  constructor
  · simpa using processCandidates_fst gw deliver docs sched
  · obtain ⟨blocks, h1, h2, h3⟩ := processCandidates_blocks gw deliver docs sched
    exact ⟨blocks, by simp [h1], h2, h3⟩

/-- Witness for C1 at the sample gateway: query "A" returns two candidates,
the hypotheses hold, and the conclusion is obtained by applying the theorem. -/
theorem searchTool_ordered_stream_witness :
    (¬ ("key" : String) = "" ∧ ¬ ("A" : String) = ""
      ∧ gwSample.localSearch "A" = Except.ok [docA, docB])
    ∧ ((searchTool "key" ⟨"A"⟩ gwSample sampleDeliver schedTrue).progress
        = systemPrompt
            :: ([docA, docB].filterMap
                  (fun d => (enrichOne gwSample d).map encodeResult))
      ∧ ∃ blocks : List (List NetCall),
          (searchTool "key" ⟨"A"⟩ gwSample sampleDeliver schedTrue).calls
              = NetCall.localSearch "A" :: blocks.flatten
          ∧ blocks.length = [docA, docB].length
          ∧ ∀ p ∈ blocks.zip [docA, docB],
              p.1 = [NetCall.webSearch p.2.PlaceName,
                     NetCall.imageSearch p.2.PlaceName]
              ∨ p.1 = [NetCall.imageSearch p.2.PlaceName,
                       NetCall.webSearch p.2.PlaceName]) :=
  ⟨⟨by decide, by decide, rfl⟩,
    searchTool_ordered_stream "key" "A" gwSample sampleDeliver schedTrue
      [docA, docB] (by decide) (by decide) rfl⟩

/-- A candidate one of whose two enrichment fetches errors yields no enriched
record (main.go lines 211-214). -/
theorem enrichOne_eq_none (gw : Gateway) (d : MapDocument)
    (hfail : (∃ e, gw.webSearch d.PlaceName = Except.error e)
      ∨ (∃ e, gw.imageSearch d.PlaceName = Except.error e)) :
    enrichOne gw d = none := by
  rcases hfail with ⟨e, he⟩ | ⟨e, he⟩
  · unfold enrichOne fetchWebDocuments
    rw [he]
  · have himg : fetchImageDocument gw d.PlaceName = Except.error e := by
      unfold fetchImageDocument
      rw [he]
    unfold enrichOne
    rw [himg]
    cases fetchWebDocuments gw d.PlaceName <;> rfl

/-- C2: a candidate whose comment-fetch or image-fetch errors contributes zero
payload messages, and the other candidates' emissions are exactly what they
contribute on their own: the progress stream of a run whose candidate list is
`xs ++ d :: ys`, with `d` failing, is the announcement followed by the
payloads of `xs` and then those of `ys` — processing continues past `d`. -/
theorem enrichment_failure_isolated (key q : String) (gw : Gateway)
    (deliver : String → Except String Unit) (sched : Nat → Bool)
    (xs ys : List MapDocument) (d : MapDocument)
    (hk : ¬ key = "") (hq : ¬ q = "")
    (hdocs : gw.localSearch q = Except.ok (xs ++ d :: ys))
    (hfail : (∃ e, gw.webSearch d.PlaceName = Except.error e)
      ∨ (∃ e, gw.imageSearch d.PlaceName = Except.error e)) :
    (searchTool key ⟨q⟩ gw deliver sched).progress
      = systemPrompt
          :: (xs.filterMap (fun c => (enrichOne gw c).map encodeResult)
              ++ ys.filterMap (fun c => (enrichOne gw c).map encodeResult)) := by
  rw [searchTool_ok key q gw deliver sched _ hk hq hdocs]
  have hnone := enrichOne_eq_none gw d hfail
  simp [processCandidates_fst, List.filterMap_append, List.filterMap_cons, hnone]

/-- Witness for C2: candidate "PB"'s web fetch errors, so the stream carries
only candidate "PA"'s payload. -/
theorem enrichment_failure_isolated_witness :
    (¬ ("key" : String) = "" ∧ ¬ ("A" : String) = ""
      ∧ gwSample.localSearch "A" = Except.ok ([docA] ++ docB :: [])
      ∧ ∃ e, gwSample.webSearch docB.PlaceName = Except.error e)
    ∧ (searchTool "key" ⟨"A"⟩ gwSample sampleDeliver schedTrue).progress
        = systemPrompt
            :: ([docA].filterMap (fun c => (enrichOne gwSample c).map encodeResult)
                ++ ([] : List MapDocument).filterMap
                    (fun c => (enrichOne gwSample c).map encodeResult)) :=
  ⟨⟨by decide, by decide, rfl, ⟨"500", rfl⟩⟩,
    enrichment_failure_isolated "key" "A" gwSample sampleDeliver schedTrue
      [docA] [] docB (by decide) (by decide) rfl (Or.inl ⟨"500", rfl⟩)⟩

/-- C3 counterexample: the terminal completion message's text is the fixed
string "Search complete. All results have been streamed.", which is not the
string "Search complete." the claim states. -/
theorem completion_text_counterexample :
    (searchTool "key" ⟨"A"⟩ gwSample sampleDeliver schedTrue).outcome
        = ToolOutcome.result false
            "Search complete. All results have been streamed."
    ∧ "Search complete. All results have been streamed." ≠ "Search complete." :=
  ⟨rfl, by decide⟩

/-- C3 (amended): for every non-empty query whose place search returns `docs`,
the run emits one announcement first, then at most `docs.length` payload
messages, each the serialization of one successfully enriched candidate, and
returns exactly one terminal completion result whose text is
"Search complete. All results have been streamed."; in total at most
`docs.length + 2` messages. -/
theorem completion_and_count (key q : String) (gw : Gateway)
    (deliver : String → Except String Unit) (sched : Nat → Bool)
    (docs : List MapDocument)
    (hk : ¬ key = "") (hq : ¬ q = "")
    (hdocs : gw.localSearch q = Except.ok docs) :
    ∃ payloads : List String,
      (searchTool key ⟨q⟩ gw deliver sched).progress = systemPrompt :: payloads
      ∧ payloads.length ≤ docs.length
      ∧ (∀ m ∈ payloads, ∃ d ∈ docs, ∃ r,
          enrichOne gw d = some r ∧ m = encodeResult r)
      ∧ (searchTool key ⟨q⟩ gw deliver sched).outcome
          = ToolOutcome.result false
              "Search complete. All results have been streamed."
      ∧ (searchTool key ⟨q⟩ gw deliver sched).progress.length + 1
          ≤ docs.length + 2 := by
  rw [searchTool_ok key q gw deliver sched docs hk hq hdocs]
  refine ⟨(processCandidates gw deliver sched docs).1, rfl, ?_, ?_, rfl, ?_⟩
  · rw [processCandidates_fst]
    exact List.length_filterMap_le _ _
  · rw [processCandidates_fst]
    intro m hm
    obtain ⟨d, hd, hsome⟩ := List.mem_filterMap.mp hm
    obtain ⟨r, hr, henc⟩ := Option.map_eq_some'.mp hsome
    exact ⟨d, hd, r, hr, henc.symm⟩
  · have := List.length_filterMap_le
      (fun d => (enrichOne gw d).map encodeResult) docs
    simp only [List.length_cons, processCandidates_fst]
    omega

/-- Witness for the amended C3 at the sample gateway. -/
theorem completion_and_count_witness :
    ∃ payloads : List String,
      (searchTool "key" ⟨"A"⟩ gwSample sampleDeliver schedTrue).progress
          = systemPrompt :: payloads
      ∧ payloads.length ≤ [docA, docB].length
      ∧ (∀ m ∈ payloads, ∃ d ∈ [docA, docB], ∃ r,
          enrichOne gwSample d = some r ∧ m = encodeResult r)
      ∧ (searchTool "key" ⟨"A"⟩ gwSample sampleDeliver schedTrue).outcome
          = ToolOutcome.result false
              "Search complete. All results have been streamed."
      ∧ (searchTool "key" ⟨"A"⟩ gwSample sampleDeliver schedTrue).progress.length + 1
          ≤ [docA, docB].length + 2 :=
  completion_and_count "key" "A" gwSample sampleDeliver schedTrue [docA, docB]
    (by decide) (by decide) rfl

/-- C4 counterexample: the query " " is whitespace-only (empty after trim),
yet the run is not rejected: it issues the place-search network call. -/
theorem whitespace_query_counterexample :
    (" " : String).toList.all Char.isWhitespace = true
    ∧ (searchTool "key" ⟨" "⟩ gwSample sampleDeliver schedTrue).calls
        = [NetCall.localSearch " "]
    ∧ (searchTool "key" ⟨" "⟩ gwSample sampleDeliver schedTrue).outcome
        ≠ ToolOutcome.result true "Query is empty" :=
  ⟨by decide, rfl, by decide⟩

/-- C4 (amended): only the exactly-empty query string is rejected: with the
credential configured, the empty query yields an immediate error result
"Query is empty" with no progress message and zero network calls.  (The guard
in main.go line 172 compares against the empty string without trimming, so
whitespace-only queries are not rejected — see the counterexample.) -/
theorem empty_query_rejected (key : String) (gw : Gateway)
    (deliver : String → Except String Unit) (sched : Nat → Bool)
    (hk : ¬ key = "") :
    searchTool key ⟨""⟩ gw deliver sched
      = { outcome := ToolOutcome.result true "Query is empty"
          progress := []
          calls := [] } := by
  simp [searchTool, hk]

/-- Witness for the amended C4. -/
theorem empty_query_rejected_witness :
    searchTool "key" ⟨""⟩ gwSample sampleDeliver schedTrue
      = { outcome := ToolOutcome.result true "Query is empty"
          progress := []
          calls := [] } :=
  empty_query_rejected "key" gwSample sampleDeliver schedTrue (by decide)

/-- C5: with the API credential unset, the tool call returns an immediate
error result whose text names the missing credential, with no progress
message and zero network calls (main.go lines 165-171). -/
theorem missing_key_rejected (options : SearchSchema) (gw : Gateway)
    (deliver : String → Except String Unit) (sched : Nat → Bool) :
    searchTool "" options gw deliver sched
      = { outcome := ToolOutcome.result true
            "Tool Execution Failed: KAKAO_API_KEY is not configured."
          progress := []
          calls := [] }
    ∧ ∃ a b : String,
        "Tool Execution Failed: KAKAO_API_KEY is not configured."
          = a ++ "KAKAO_API_KEY" ++ b :=
  ⟨rfl, "Tool Execution Failed: ", " is not configured.", rfl⟩

/-- C6: if the place-search call fails, the whole invocation aborts as a
tool-level error carrying the wrapped fetch error, with no enrichment call,
no payload message and no completion result; and this is the only network
failure with that effect — whenever place search succeeds, the invocation
returns the completion result, regardless of any enrichment failures. -/
theorem map_fetch_failure_aborts (key q : String) (gw : Gateway)
    (deliver : String → Except String Unit) (sched : Nat → Bool)
    (hk : ¬ key = "") (hq : ¬ q = "") :
    (∀ e, gw.localSearch q = Except.error e →
      searchTool key ⟨q⟩ gw deliver sched
        = { outcome := ToolOutcome.err ("failed to fetch map documents: " ++ e)
            progress := [systemPrompt]
            calls := [NetCall.localSearch q] })
    ∧ (∀ docs, gw.localSearch q = Except.ok docs →
      (searchTool key ⟨q⟩ gw deliver sched).outcome
        = ToolOutcome.result false
            "Search complete. All results have been streamed.") := by
  constructor
  · intro e he
    exact searchTool_fetch_failed key q gw deliver sched e hk hq he
  · intro docs hdocs
    rw [searchTool_ok key q gw deliver sched docs hk hq hdocs]

/-- Witness for C6: place search fails for query "Z" (status 404) and the run
aborts; for query "A" it succeeds and completes even though candidate "PB"'s
enrichment fails. -/
theorem map_fetch_failure_aborts_witness :
    searchTool "key" ⟨"Z"⟩ gwSample sampleDeliver schedTrue
      = { outcome := ToolOutcome.err ("failed to fetch map documents: " ++ "404")
          progress := [systemPrompt]
          calls := [NetCall.localSearch "Z"] }
    ∧ (searchTool "key" ⟨"A"⟩ gwSample sampleDeliver schedTrue).outcome
        = ToolOutcome.result false
            "Search complete. All results have been streamed." :=
  ⟨(map_fetch_failure_aborts "key" "Z" gwSample sampleDeliver schedTrue
      (by decide) (by decide)).1 "404" rfl,
    (map_fetch_failure_aborts "key" "A" gwSample sampleDeliver schedTrue
      (by decide) (by decide)).2 [docA, docB] rfl⟩

/-- C7: `fetchImageDocument` returns the first decoded image document when
the decoded list is non-empty, and a "no image" value (empty URL) without an
error when the decoded list is empty. -/
theorem fetchImageDocument_first_or_empty (gw : Gateway) (q : String) :
    (∀ d ds, gw.imageSearch q = Except.ok (d :: ds) →
      fetchImageDocument gw q = Except.ok d)
    ∧ (gw.imageSearch q = Except.ok [] →
      fetchImageDocument gw q = Except.ok { ImageURL := "" }) := by
  constructor
  · intro d ds h
    unfold fetchImageDocument
    rw [h]
  · intro h
    unfold fetchImageDocument
    rw [h]

/-- Witness for C7: query "PA" has one image document and its URL is
returned; query "PB" has none and the empty URL is returned without error. -/
theorem fetchImageDocument_first_or_empty_witness :
    fetchImageDocument gwSample "PA" = Except.ok { ImageURL := "img" }
    ∧ fetchImageDocument gwSample "PB" = Except.ok { ImageURL := "" } :=
  ⟨(fetchImageDocument_first_or_empty gwSample "PA").1
      { ImageURL := "img" } [] rfl,
    (fetchImageDocument_first_or_empty gwSample "PB").2 rfl⟩

/-- The enriched record candidate "PA" yields at the sample gateway. -/
def enrichedA : KakaoLocalSearchResult :=
  { PlaceName := "PA", AddressName := "addrA", CategoryName := "catA",
    PlaceURL := "urlA", Phone := "phA", ImageURL := "img",
    Comments := [{ Title := "t", Contents := "c" }] }

/-- The progress stream depends only on the gateway and the query: neither the
delivery oracle nor the scheduling of the two concurrent fetches affects it. -/
theorem searchTool_progress_oracles (key q : String) (gw : Gateway)
    (d1 d2 : String → Except String Unit) (s1 s2 : Nat → Bool) :
    (searchTool key ⟨q⟩ gw d1 s1).progress
      = (searchTool key ⟨q⟩ gw d2 s2).progress := by
  by_cases hk : key = ""
  · simp [searchTool, hk]
  · by_cases hq : q = ""
    · simp [searchTool, hk, hq]
    · cases h : gw.localSearch q with
      | error e =>
        rw [searchTool_fetch_failed key q gw d1 s1 e hk hq h,
          searchTool_fetch_failed key q gw d2 s2 e hk hq h]
      | ok docs =>
        rw [searchTool_ok key q gw d1 s1 docs hk hq h,
          searchTool_ok key q gw d2 s2 docs hk hq h]
        simp [processCandidates_fst]

/-- C8: with a deterministic gateway (each fetch a pure function of its
query), two invocations with the same query produce byte-identical progress
streams, whatever the delivery outcomes and internal fetch scheduling of
either run. -/
theorem deterministic_gateway_idempotent (gw1 gw2 : Gateway)
    (hl : ∀ r, gw1.localSearch r = gw2.localSearch r)
    (hw : ∀ r, gw1.webSearch r = gw2.webSearch r)
    (hi : ∀ r, gw1.imageSearch r = gw2.imageSearch r)
    (key q : String) (d1 d2 : String → Except String Unit)
    (s1 s2 : Nat → Bool) :
    (searchTool key ⟨q⟩ gw1 d1 s1).progress
      = (searchTool key ⟨q⟩ gw2 d2 s2).progress := by
  have hgw : gw1 = gw2 := by
    obtain ⟨l1, w1, i1⟩ := gw1
    obtain ⟨l2, w2, i2⟩ := gw2
    simp only [Gateway.mk.injEq]
    exact ⟨funext hl, funext hw, funext hi⟩
  subst hgw
  exact searchTool_progress_oracles key q gw1 d1 d2 s1 s2

/-- Witness for C8: two runs at the sample gateway with different delivery
outcomes and different schedulings still agree on the progress stream. -/
theorem deterministic_gateway_idempotent_witness :
    (searchTool "key" ⟨"A"⟩ gwSample sampleDeliver schedTrue).progress
      = (searchTool "key" ⟨"A"⟩ gwSample failDeliver schedAlt).progress :=
  deterministic_gateway_idempotent gwSample gwSample
    (fun _ => rfl) (fun _ => rfl) (fun _ => rfl)
    "key" "A" sampleDeliver failDeliver schedTrue schedAlt

/-- C9: a successfully enriched candidate's record carries the candidate's
five fields unchanged; enrichment only attaches the fetched comment list and
the fetched image URL. -/
theorem enrich_preserves_candidate_fields (gw : Gateway) (d : MapDocument)
    (r : KakaoLocalSearchResult) (h : enrichOne gw d = some r) :
    r.PlaceName = d.PlaceName ∧ r.AddressName = d.AddressName
    ∧ r.CategoryName = d.CategoryName ∧ r.PlaceURL = d.PlaceURL
    ∧ r.Phone = d.Phone
    ∧ ∃ ws img, gw.webSearch d.PlaceName = Except.ok ws
        ∧ fetchImageDocument gw d.PlaceName = Except.ok img
        ∧ r.Comments = ws ∧ r.ImageURL = img.ImageURL := by
  unfold enrichOne at h
  cases hw : fetchWebDocuments gw d.PlaceName with
  | error e =>
    rw [hw] at h
    cases hi : fetchImageDocument gw d.PlaceName <;> rw [hi] at h <;> simp at h
  | ok ws =>
    rw [hw] at h
    cases hi : fetchImageDocument gw d.PlaceName with
    | error e =>
      rw [hi] at h
      simp at h
    | ok img =>
      rw [hi] at h
      injection h with h
      subst h
      exact ⟨rfl, rfl, rfl, rfl, rfl, ws, img, hw, rfl, rfl, rfl⟩

/-- Witness for C9 at candidate "PA" of the sample gateway. -/
theorem enrich_preserves_candidate_fields_witness :
    enrichOne gwSample docA = some enrichedA
    ∧ (enrichedA.PlaceName = docA.PlaceName
      ∧ enrichedA.AddressName = docA.AddressName
      ∧ enrichedA.CategoryName = docA.CategoryName
      ∧ enrichedA.PlaceURL = docA.PlaceURL
      ∧ enrichedA.Phone = docA.Phone
      ∧ ∃ ws img, gwSample.webSearch docA.PlaceName = Except.ok ws
          ∧ fetchImageDocument gwSample docA.PlaceName = Except.ok img
          ∧ enrichedA.Comments = ws ∧ enrichedA.ImageURL = img.ImageURL) :=
  ⟨rfl, enrich_preserves_candidate_fields gwSample docA enrichedA rfl⟩

/-- C10: the result of every progress-notification call is discarded, so the
run is unchanged under any delivery oracle; in particular, even when every
delivery fails, a run whose place search succeeds still processes all
candidates and still returns the successful completion result. -/
theorem delivery_failure_not_fatal (key q : String) (gw : Gateway)
    (sched : Nat → Bool) (d1 d2 : String → Except String Unit) :
    searchTool key ⟨q⟩ gw d1 sched = searchTool key ⟨q⟩ gw d2 sched
    ∧ ∀ docs, ¬ key = "" → ¬ q = "" → gw.localSearch q = Except.ok docs →
        (searchTool key ⟨q⟩ gw failDeliver sched).outcome
          = ToolOutcome.result false
              "Search complete. All results have been streamed." := by
  constructor
  · by_cases hk : key = ""
    · simp [searchTool, hk]
    · by_cases hq : q = ""
      · simp [searchTool, hk, hq]
      · cases h : gw.localSearch q with
        | error e =>
          rw [searchTool_fetch_failed key q gw d1 sched e hk hq h,
            searchTool_fetch_failed key q gw d2 sched e hk hq h]
        | ok docs =>
          rw [searchTool_ok key q gw d1 sched docs hk hq h,
            searchTool_ok key q gw d2 sched docs hk hq h,
            processCandidates_deliver gw d1 d2 docs sched]
  · intro docs hk hq hdocs
    rw [searchTool_ok key q gw failDeliver sched docs hk hq hdocs]

/-- Witness for C10: at the sample gateway, the run under an always-failing
delivery oracle equals the run under an always-succeeding one and still
returns the completion result. -/
theorem delivery_failure_not_fatal_witness :
    searchTool "key" ⟨"A"⟩ gwSample failDeliver schedTrue
      = searchTool "key" ⟨"A"⟩ gwSample sampleDeliver schedTrue
    ∧ (searchTool "key" ⟨"A"⟩ gwSample failDeliver schedTrue).outcome
        = ToolOutcome.result false
            "Search complete. All results have been streamed." :=
  ⟨(delivery_failure_not_fatal "key" "A" gwSample schedTrue
      failDeliver sampleDeliver).1,
    (delivery_failure_not_fatal "key" "A" gwSample schedTrue
      failDeliver sampleDeliver).2 [docA, docB] (by decide) (by decide) rfl⟩
